import Mathlib

/-!
Verification of the error module of the getrandom crate (src/error.rs).
The Rust code is shallowly embedded: `NonZeroU32` becomes a subtype of
`Nat`, the `Error` struct a one-field structure, `std::io::Error` an
inductive carrying either a raw OS code or a message, and the external
collaborator `error_msg_inner` a function parameter.
-/

namespace Getrandom

/-- Model of Rust's `core::num::NonZeroU32`: a natural number that is
nonzero and fits in 32 bits. -/
abbrev NonZeroU32 : Type := { n : Nat // 0 < n ∧ n < 2 ^ 32 }

/-- Model of `NonZeroU32::new`: succeeds exactly on nonzero 32-bit values. -/
def NonZeroU32.new (n : Nat) : Option NonZeroU32 :=
  if h : 0 < n ∧ n < 2 ^ 32 then some ⟨n, h⟩ else none

/-- Source constant `CODE_PREFIX : u32 = 0x57f40000`. -/
def CODE_PREFIX : Nat := 0x57f40000

/-- Source constant `CODE_UNKNOWN = CODE_PREFIX | 0`. -/
def CODE_UNKNOWN : Nat := CODE_PREFIX ||| 0

/-- Source constant `CODE_UNAVAILABLE = CODE_PREFIX | 1`. -/
def CODE_UNAVAILABLE : Nat := CODE_PREFIX ||| 1

/-- Model of `pub struct Error(NonZeroU32)`. -/
structure Error where
  raw : NonZeroU32
deriving DecidableEq

/-- Source constant `ERROR_UNKNOWN = Error(NonZeroU32::new_unchecked(CODE_UNKNOWN))`. -/
def ERROR_UNKNOWN : Error := ⟨⟨ CODE_UNKNOWN, by decide⟩⟩

/-- Source constant `ERROR_UNAVAILABLE = Error(NonZeroU32::new_unchecked(CODE_UNAVAILABLE))`. -/
def ERROR_UNAVAILABLE : Error := ⟨⟨ CODE_UNAVAILABLE, by decide⟩⟩

/-- Model of `Error::code`: return the raw payload. -/
def Error.code (e : Error) : NonZeroU32 := e.raw

/-- Model of `Error::msg`: query `super::error_msg_inner` (the external
platform collaborator, here the parameter `lookup`) first; if it yields
nothing, match `*self` against the two library constants. -/
def Error.msg (lookup : NonZeroU32 → Option String) (e : Error) : Option String :=
  match lookup e.raw with
  | some m => some m
  | none =>
    if e = ERROR_UNKNOWN then some "getrandom: unknown error"
    else if e = ERROR_UNAVAILABLE then some "getrandom: unavailable"
    else none

/-- One uppercase hexadecimal digit, as produced by Rust's `X` format. -/
def hexDigit (n : Nat) : Char :=
  if n < 10 then Char.ofNat (48 + n) else Char.ofNat (55 + n)

/-- Model of the Rust format specifier `{:08X}` applied to a `u32`:
eight zero-padded uppercase hexadecimal digits, most significant first. -/
def hex8 (n : Nat) : String :=
  String.mk ((List.range 8).map (fun i => hexDigit (n / 16 ^ (7 - i) % 16)))

/-- Model of `impl fmt::Display for Error`: the resolved message if any,
otherwise `getrandom: unknown code 0x{:08X}`. -/
def Error.display (lookup : NonZeroU32 → Option String) (e : Error) : String :=
  match e.msg lookup with
  | some m => m
  | none => "getrandom: unknown code 0x" ++ hex8 e.raw.val

/-- Model of `impl fmt::Debug for Error`: `Error("msg")` if a message
resolves, otherwise `Error(0x{:08X})`. -/
def Error.debugStr (lookup : NonZeroU32 → Option String) (e : Error) : String :=
  match e.msg lookup with
  | some m => "Error(\"" ++ m ++ "\")"
  | none => "Error(0x" ++ hex8 e.raw.val ++ ")"

/-- Model of `impl From<NonZeroU32> for Error`. -/
def Error.fromNonZeroU32 (code : NonZeroU32) : Error := ⟨code⟩

/-- Model of Rust's `std::io::Error` as this module sees it: either built
by `io::Error::from_raw_os_error` (carrying a raw numeric OS code) or by
`io::Error::new(kind, msg)` (carrying a message and no OS code). -/
inductive IOError where
  | osError (code : Int)
  | custom (msg : String)
deriving DecidableEq

/-- Model of `io::Error::raw_os_error`. -/
def IOError.raw_os_error : IOError → Option Int
  | .osError c => some c
  | .custom _ => none

/-- The Rust cast `code as u32` on an `i32`: two's-complement
reinterpretation into the unsigned 32-bit range. -/
def i32_as_u32 (n : Int) : Nat := (n % (2 ^ 32 : Int)).toNat

/-- The Rust cast `x as i32` on a `u32`: two's-complement
reinterpretation into the signed 32-bit range. -/
def u32_as_i32 (n : Nat) : Int :=
  if n < 2 ^ 31 then (n : Int) else (n : Int) - 2 ^ 32

/-- Model of `impl From<io::Error> for Error`:
`err.raw_os_error().and_then(|code| NonZeroU32::new(code as u32)).map(Error).unwrap_or(ERROR_UNKNOWN)`. -/
def Error.fromIOError (err : IOError) : Error :=
  ((err.raw_os_error.bind (fun code => NonZeroU32.new (i32_as_u32 code))).map
    (fun code => Error.mk code)).getD ERROR_UNKNOWN

/-- Model of `impl From<Error> for io::Error`: a message error when the
code resolves to a message, otherwise `from_raw_os_error(code as i32)`. -/
def Error.toIOError (lookup : NonZeroU32 → Option String) (err : Error) : IOError :=
  match err.msg lookup with
  | some m => .custom m
  | none => .osError (u32_as_i32 err.raw.val)

/-- Niche encoding of `Result<(), Error>` into the 32-bit value space:
success is the zero bit pattern, an error is its own nonzero payload. -/
def encodeResult : Except Error Unit → Nat
  | .ok _ => 0
  | .error e => e.raw.val

/-- The unsigned reinterpretation of any integer is a 32-bit value. -/
theorem i32_as_u32_lt (n : Int) : i32_as_u32 n < 2 ^ 32 := by
  unfold i32_as_u32
  have h1 : 0 ≤ n % 2 ^ 32 := Int.emod_nonneg n (by norm_num)
  have h2 : n % 2 ^ 32 < 2 ^ 32 := Int.emod_lt_of_pos n (by norm_num)
  omega

/-- A nonzero `i32` reinterprets to a nonzero `u32`. -/
theorem i32_as_u32_ne_zero (n : Int) (h1 : -2 ^ 31 ≤ n) (h2 : n < 2 ^ 31)
    (h0 : n ≠ 0) : i32_as_u32 n ≠ 0 := by
  unfold i32_as_u32
  omega

/-- Reinterpreting `i32 → u32 → i32` is the identity on the `i32` range. -/
theorem i32_roundtrip (n : Int) (h1 : -2 ^ 31 ≤ n) (h2 : n < 2 ^ 31) :
    u32_as_i32 (i32_as_u32 n) = n := by
  unfold u32_as_i32 i32_as_u32
  split <;> omega

/-- Evaluation of `From<io::Error>` on an error carrying a nonzero-reinterpreting
raw OS code: the code is wrapped unchanged. -/
theorem fromIOError_osError (n : Int) (hne : i32_as_u32 n ≠ 0) :
    Error.fromIOError (.osError n) =
      ⟨⟨ i32_as_u32 n, Nat.pos_of_ne_zero hne, i32_as_u32_lt n⟩⟩ := by
  unfold Error.fromIOError IOError.raw_os_error NonZeroU32.new
  rw [Option.some_bind, dif_pos ⟨Nat.pos_of_ne_zero hne, i32_as_u32_lt n⟩]
  rfl

/-- Every digit emitted by `hexDigit` on a value below 16 is an uppercase
hexadecimal character. -/
theorem hexDigit_mem (m : Nat) (h : m < 16) :
    hexDigit m ∈ "0123456789ABCDEF".data := by
  interval_cases m <;> decide

/-- The `{:08X}` rendering always has exactly eight characters. -/
theorem hex8_length (n : Nat) : (hex8 n).length = 8 := rfl

/-- C1: ERROR_UNKNOWN encodes as 0x57F40000 (lower half 0x0000) and
ERROR_UNAVAILABLE as 0x57F40001 (lower half 0x0001); the two are distinct
and both have upper 16 bits equal to the library prefix. -/
theorem library_constants_bit_exact :
    ERROR_UNKNOWN.code.val = 0x57F40000 ∧
    ERROR_UNAVAILABLE.code.val = 0x57F40001 ∧
    ERROR_UNKNOWN ≠ ERROR_UNAVAILABLE ∧
    ERROR_UNKNOWN.code.val / 2 ^ 16 = CODE_PREFIX / 2 ^ 16 ∧
    ERROR_UNAVAILABLE.code.val / 2 ^ 16 = CODE_PREFIX / 2 ^ 16 ∧
    ERROR_UNKNOWN.code.val % 2 ^ 16 = 0 ∧
    ERROR_UNAVAILABLE.code.val % 2 ^ 16 = 1 := by
  decide

/-- C2: for every nonzero 32-bit value c, building an Error from it via
`From<NonZeroU32>` and extracting with `code()` returns c unchanged. -/
theorem code_roundtrip (c : Nat) (h1 : 0 < c) (h2 : c < 2 ^ 32) :
    (Error.fromNonZeroU32 ⟨c, h1, h2⟩).code = ⟨c, h1, h2⟩ := rfl

/-- Witness for C2 at the concrete code 5. -/
theorem code_roundtrip_witness :
    (Error.fromNonZeroU32 ⟨5, by decide⟩).code.val = 5 :=
  congrArg Subtype.val (code_roundtrip 5 (by decide) (by decide))

/-- C3: `From<io::Error>` never fails: a carried OS code that is nonzero as
u32 is wrapped exactly; a zero code or an absent code yields ERROR_UNKNOWN. -/
theorem fromIOError_total (err : IOError) :
    (∀ n, err = .osError n → i32_as_u32 n ≠ 0 →
        (Error.fromIOError err).code.val = i32_as_u32 n) ∧
    (∀ n, err = .osError n → i32_as_u32 n = 0 →
        Error.fromIOError err = ERROR_UNKNOWN) ∧
    (err.raw_os_error = none → Error.fromIOError err = ERROR_UNKNOWN) := by
  refine ⟨?_, ?_, ?_⟩
  · rintro n rfl hne
    rw [fromIOError_osError n hne]
    rfl
  · rintro n rfl hz
    unfold Error.fromIOError IOError.raw_os_error NonZeroU32.new
    rw [Option.some_bind, dif_neg (by omega)]
    rfl
  · intro hnone
    unfold Error.fromIOError
    rw [hnone]
    rfl

/-- Witness for C3 at concrete inputs 7, 0 and a codeless error. -/
theorem fromIOError_total_witness :
    (Error.fromIOError (.osError 7)).code.val = 7 ∧
    Error.fromIOError (.osError 0) = ERROR_UNKNOWN ∧
    Error.fromIOError (.custom "x") = ERROR_UNKNOWN :=
  ⟨(fromIOError_total (.osError 7)).1 7 rfl (by decide),
   (fromIOError_total (.osError 0)).2.1 0 rfl (by decide),
   (fromIOError_total (.custom "x")).2.2 rfl⟩

/-- C4: for an io error carrying a nonzero i32 code n, converting to Error
and back takes exactly one deterministic path: the message path when
resolution succeeds, otherwise reconstruction from the raw code with the
extracted code equal to n. -/
theorem io_roundtrip (lookup : NonZeroU32 → Option String) (n : Int)
    (h1 : -2 ^ 31 ≤ n) (h2 : n < 2 ^ 31) (h0 : n ≠ 0) :
    match (Error.fromIOError (.osError n)).msg lookup with
    | some m =>
        Error.toIOError lookup (Error.fromIOError (.osError n)) = .custom m
    | none =>
        (Error.toIOError lookup (Error.fromIOError (.osError n))).raw_os_error
          = some n := by
  have hne := i32_as_u32_ne_zero n h1 h2 h0
  rw [fromIOError_osError n hne]
  split
  case h_1 m hm =>
    unfold Error.toIOError
    rw [hm]
  case h_2 hm =>
    unfold Error.toIOError
    rw [hm]
    show (IOError.osError (u32_as_i32 (i32_as_u32 n))).raw_os_error = some n
    unfold IOError.raw_os_error
    rw [i32_roundtrip n h1 h2]

/-- Witness for C4 at code 7 with a collaborator that knows no messages. -/
theorem io_roundtrip_witness :
    (Error.toIOError (fun _ => none)
        (Error.fromIOError (.osError 7))).raw_os_error = some 7 :=
  io_roundtrip (fun _ => none) 7 (by decide) (by decide) (by decide)

/-- C5: message resolution queries the platform collaborator first and
returns its answer when present; only on a collaborator miss are the two
built-in constants consulted, yielding their fixed text on match and
nothing otherwise. -/
theorem msg_ordering (lookup : NonZeroU32 → Option String) (e : Error) :
    (∀ m, lookup e.code = some m → e.msg lookup = some m) ∧
    (lookup e.code = none →
      e.msg lookup =
        if e = ERROR_UNKNOWN then some "getrandom: unknown error"
        else if e = ERROR_UNAVAILABLE then some "getrandom: unavailable"
        else none) := by
  constructor
  · intro m hm
    unfold Error.code at hm
    unfold Error.msg
    rw [hm]
  · intro hn
    unfold Error.code at hn
    unfold Error.msg
    rw [hn]

/-- Witness for C5: a collaborator message for the ERROR_UNKNOWN code takes
precedence over the built-in text. -/
theorem msg_ordering_witness :
    Error.msg (fun _ => some "platform text") ERROR_UNKNOWN
      = some "platform text" :=
  (msg_ordering (fun _ => some "platform text") ERROR_UNKNOWN).1
    "platform text" rfl

/-- C6: when the platform collaborator knows no message for the two library
codes, Display of ERROR_UNKNOWN is exactly "getrandom: unknown error" and
Display of ERROR_UNAVAILABLE is exactly "getrandom: unavailable". -/
theorem display_constants (lookup : NonZeroU32 → Option String)
    (h1 : lookup ERROR_UNKNOWN.code = none)
    (h2 : lookup ERROR_UNAVAILABLE.code = none) :
    Error.display lookup ERROR_UNKNOWN = "getrandom: unknown error" ∧
    Error.display lookup ERROR_UNAVAILABLE = "getrandom: unavailable" := by
  unfold Error.code at h1 h2
  constructor
  · unfold Error.display Error.msg
    rw [h1]
    decide
  · unfold Error.display Error.msg
    rw [h2]
    decide

/-- Witness for C6 with the empty collaborator. -/
theorem display_constants_witness :
    Error.display (fun _ => none) ERROR_UNKNOWN = "getrandom: unknown error" ∧
    Error.display (fun _ => none) ERROR_UNAVAILABLE = "getrandom: unavailable" :=
  display_constants (fun _ => none) rfl rfl

/-- C7: when message resolution fails, Display is exactly
"getrandom: unknown code 0x" followed by the 8-digit zero-padded uppercase
hex code, and Debug is exactly "Error(0x" ++ the same digits ++ ")". -/
theorem unresolved_code_format (lookup : NonZeroU32 → Option String)
    (e : Error) (h : e.msg lookup = none) :
    Error.display lookup e = "getrandom: unknown code 0x" ++ hex8 e.code.val ∧
    Error.debugStr lookup e = "Error(0x" ++ hex8 e.code.val ++ ")" ∧
    (hex8 e.code.val).length = 8 ∧
    ∀ c ∈ (hex8 e.code.val).data, c ∈ "0123456789ABCDEF".data := by
  refine ⟨?_, ?_, hex8_length _, ?_⟩
  · unfold Error.display
    rw [h]
    rfl
  · unfold Error.debugStr
    rw [h]
    rfl
  · intro c hc
    unfold hex8 at hc
    simp only [String.data, List.mem_map] at hc
    obtain ⟨i, _, rfl⟩ := hc
    exact hexDigit_mem _ (Nat.mod_lt _ (by norm_num))

/-- Witness for C7 at the spec's example code 0x12345678. -/
theorem unresolved_code_format_witness :
    Error.display (fun _ => none) ⟨⟨0x12345678, by decide⟩⟩
      = "getrandom: unknown code 0x12345678" ∧
    Error.debugStr (fun _ => none) ⟨⟨0x12345678, by decide⟩⟩
      = "Error(0x12345678)" := by
  have h := unresolved_code_format (fun _ => none)
    ⟨⟨0x12345678, by decide⟩⟩ (by decide)
  exact ⟨h.1.trans (by decide), h.2.1.trans (by decide)⟩

/-- C8 counterexample: a collaborator-supplied message is displayed
verbatim, not in the form "getrandom: <message>". -/
theorem display_message_counterexample :
    Error.msg (fun _ => some "oops") ERROR_UNAVAILABLE = some "oops" ∧
    Error.display (fun _ => some "oops") ERROR_UNAVAILABLE = "oops" ∧
    Error.display (fun _ => some "oops") ERROR_UNAVAILABLE
      ≠ "getrandom: " ++ "oops" := by
  refine ⟨rfl, rfl, ?_⟩
  decide

/-- C8 amended: when message resolution succeeds, Display renders exactly
the resolved message text (built-in library messages carry the
"getrandom: " prefix themselves; collaborator messages are rendered
verbatim) and Debug renders exactly the quoted message inside Error(...). -/
theorem resolved_message_format (lookup : NonZeroU32 → Option String)
    (e : Error) (m : String) (h : e.msg lookup = some m) :
    Error.display lookup e = m ∧
    Error.debugStr lookup e = "Error(\"" ++ m ++ "\")" := by
  constructor
  · unfold Error.display
    rw [h]
  · unfold Error.debugStr
    rw [h]

/-- Witness for the amended C8 at a concrete collaborator message. -/
theorem resolved_message_format_witness :
    Error.display (fun _ => some "boom") ERROR_UNKNOWN = "boom" ∧
    Error.debugStr (fun _ => some "boom") ERROR_UNKNOWN = "Error(\"boom\")" :=
  resolved_message_format (fun _ => some "boom") ERROR_UNKNOWN "boom" rfl

/-- C9: every Error holds a nonzero 32-bit payload, and Result<(), Error>
fits in the 32-bit value space with zero free for success: the niche
encoding into 32-bit values is injective. -/
theorem nonzero_invariant_and_niche :
    (∀ e : Error, 0 < e.code.val ∧ e.code.val < 2 ^ 32) ∧
    Function.Injective encodeResult ∧
    (∀ r, encodeResult r < 2 ^ 32) := by
  refine ⟨fun e => e.raw.property, ?_, ?_⟩
  · intro a b hab
    cases a with
    | ok u =>
      cases b with
      | ok v => cases u; cases v; rfl
      | error e =>
        have := e.raw.property.1
        simp only [encodeResult] at hab
        omega
    | error e =>
      cases b with
      | ok v =>
        have := e.raw.property.1
        simp only [encodeResult] at hab
        omega
      | error e2 =>
        simp only [encodeResult] at hab
        exact congrArg Except.error (congrArg Error.mk (Subtype.ext hab))
  · intro r
    cases r with
    | ok u => cases u; decide
    | error e => exact e.raw.property.2

/-- C10: whenever message resolution succeeds, Error → io::Error → Error
collapses to ERROR_UNKNOWN, because the message-path io error carries no
raw OS code; so the round trip is not the identity. -/
theorem roundtrip_collapses_to_unknown (lookup : NonZeroU32 → Option String)
    (e : Error) (m : String) (h : e.msg lookup = some m) :
    Error.fromIOError (Error.toIOError lookup e) = ERROR_UNKNOWN := by
  unfold Error.toIOError
  rw [h]
  rfl

/-- Witness for C10: ERROR_UNAVAILABLE maps back to ERROR_UNKNOWN. -/
theorem roundtrip_collapses_to_unknown_witness :
    Error.fromIOError (Error.toIOError (fun _ => none) ERROR_UNAVAILABLE)
      = ERROR_UNKNOWN ∧
    ERROR_UNAVAILABLE ≠ ERROR_UNKNOWN :=
  ⟨roundtrip_collapses_to_unknown (fun _ => none) ERROR_UNAVAILABLE
      "getrandom: unavailable" (by decide),
   by decide⟩

end Getrandom
